import Mathlib

/-!
Shallow embedding of the time-series decomposition and forecasting core of
`streamlit_app.py` (ANP fuel-sales dashboard), together with theorems that
settle the frozen claims about its specification.

The embedding covers:
* the proleptic Gregorian calendar arithmetic that `pandas` timestamps use
  (day numbers, month lengths, leap years, the month-end frequency `M` of
  `pd.date_range`);
* `validate_fields` (streamlit_app.py lines 26-48), including the exact
  warning site reached by each failure;
* the dataset slice of `decompose_time_series` (lines 176-180);
* `seasonal_decompose(..., model='additive', period=12)` from
  `statsmodels.tsa.seasonal` as called at lines 190-192: centered moving
  average trend with the even-period filter, per-phase seasonal means
  normalised to zero mean, residual = observed - trend - seasonal;
* the forecast-date generation of `sarima_forecast` (lines 129-132),
  `pd.date_range(start=index[-1], periods=len+1, freq='M')[1:]`, with the
  SARIMAX fit/forecast library call abstracted as a function parameter;
* the fact that the module never imports `SARIMAX` (only
  `seasonal_decompose` is imported at line 5), so the body of
  `sarima_forecast` raises `NameError` at line 122 when executed;
* the `Generate` branch of `decompose_time_series` (lines 167-221), whose
  call to `sarima_forecast` at line 219 is commented out.

Values are modelled as rationals; machine floats are not modelled, so the
reconstruction identity of the decomposition is exact here.
-/

/-! ## Calendar model (pandas timestamps at day granularity) -/

/-- Gregorian leap-year test, as used by `pandas` timestamps. -/
def isLeapYear (y : ℕ) : Bool :=
  (y % 4 == 0 && y % 100 != 0) || y % 400 == 0

/-- Length of month `m` (1-12) in a year whose leap flag is `leap`;
0 for out-of-range month numbers. -/
def daysInMonthL (leap : Bool) : ℕ → ℕ
  | 1 => 31
  | 2 => if leap then 29 else 28
  | 3 => 31
  | 4 => 30
  | 5 => 31
  | 6 => 30
  | 7 => 31
  | 8 => 31
  | 9 => 30
  | 10 => 31
  | 11 => 30
  | 12 => 31
  | _ => 0

/-- Days in the months strictly before month `m` of a year with leap flag
`leap`. -/
def daysBeforeMonth (leap : Bool) : ℕ → ℕ
  | 0 => 0
  | m + 1 => daysBeforeMonth leap m + daysInMonthL leap m

/-- Days in the proleptic Gregorian calendar strictly before January 1 of
year `y` (counting from year 1). -/
def daysBeforeYear (y : ℕ) : ℕ :=
  365 * (y - 1) + (y - 1) / 4 - (y - 1) / 100 + (y - 1) / 400

/-- Calendar date, the payload of a (midnight) pandas timestamp. -/
structure Date where
  y : ℕ
  m : ℕ
  d : ℕ
deriving DecidableEq, Repr

/-- Linear day number of a date. Differences of day numbers are exactly the
`.days` attribute of a pandas `Timedelta` between two midnight timestamps,
and comparing day numbers is exactly comparing the timestamps. -/
def dayNumber (dt : Date) : ℕ :=
  daysBeforeYear dt.y + daysBeforeMonth (isLeapYear dt.y) dt.m + (dt.d - 1)

/-- Days in month `m` of year `y`. -/
def daysInMonth (y m : ℕ) : ℕ :=
  daysInMonthL (isLeapYear y) m

/-- Advance a (year, month) pair by `k` months, months numbered 1-12. -/
def ymAdd (y m k : ℕ) : ℕ × ℕ :=
  (y + (m - 1 + k) / 12, (m - 1 + k) % 12 + 1)

/-- Last day of the month given by a (year, month) pair: the anchor of the
pandas month-end frequency `M`. -/
def monthEndYM (p : ℕ × ℕ) : Date :=
  ⟨p.1, p.2, daysInMonth p.1 p.2⟩

/-- Embedding of `pd.date_range(start=s, periods=n, freq='M')`: the
month-end timestamps beginning with the last day of the month containing
`s` (pandas rolls a non-month-end start forward to its month end). -/
def dateRangeM (s : Date) (periods : ℕ) : List Date :=
  (List.range periods).map (fun k => monthEndYM (ymAdd s.y s.m k))

/-- Embedding of adding `pd.DateOffset(months=k)` to a date: advance the
month, clamping the day to the target month length. This is the meaning of
the phrase "one period (one month) after" a timestamp in the claims. -/
def pdAddMonths (dt : Date) (k : ℕ) : Date :=
  let p := ymAdd dt.y dt.m k
  ⟨p.1, p.2, min dt.d (daysInMonth p.1 p.2)⟩

/-! ## Validator: `validate_fields` (streamlit_app.py lines 26-48)

A date boundary coming from the UI is modelled as `Option Date`: `none`
stands for an input on which `pd.to_datetime` raises `ValueError`, so that
`is_valid_date` (lines 18-24) is exactly `Option.isSome`.

The function warns through `st.warning` and returns a `Bool`. There are
four warning call sites, one per failure path, and the embedding records
which site fired. -/

/-- One constructor per `st.warning` call site in `validate_fields`:
line 30 (invalid start date), line 33 (invalid end date), line 42 (period
shorter than 24 months), line 47 (the shared else-branch, whose text is the
generic message about an invalid date). -/
inductive Warn where
  | invalidStartDate
  | invalidEndDate
  | periodTooShort
  | invalidDate
deriving DecidableEq, Repr

/-- Embedding of `validate_fields(state, product, period_date)`
(lines 26-48). Python truthiness of the selectbox strings is
non-emptiness. Returns the `Bool` result paired with the warning site
reached, if any. The span check at line 41 is
`(end_date - start_date).days <= 24 * 30`. -/
def validate_fields (state product : String) (period_date : List (Option Date)) :
    Bool × Option Warn :=
  if state ≠ "" ∧ product ≠ "" ∧ period_date.length = 2 then
    match period_date.getD 0 none, period_date.getD 1 none with
    | none, _ => (false, some Warn.invalidStartDate)
    | some _, none => (false, some Warn.invalidEndDate)
    | some s, some e =>
      if (dayNumber e : ℤ) - (dayNumber s : ℤ) ≤ 24 * 30 then
        (false, some Warn.periodTooShort)
      else
        (true, none)
  else
    (false, some Warn.invalidDate)

/-! ## Dataset rows and the slice (lines 156, 176-180) -/

/-- A row of `example_data = data[['DATA', 'ESTADO', 'PRODUTO',
'QUANTIDADE0M3']]` (line 156), with `DATA` already parsed to a timestamp
(line 230). -/
structure Row where
  DATA : Date
  ESTADO : String
  PRODUTO : String
  QUANTIDADE0M3 : ℚ
deriving DecidableEq, Repr

/-- Embedding of the slice at lines 176-180: rows whose state and product
equal the selection and whose date lies between the two boundaries, both
inclusive. -/
def filterData (rows : List Row) (state product : String) (s e : Date) : List Row :=
  rows.filter (fun r =>
    r.ESTADO == state && r.PRODUTO == product &&
      decide (dayNumber s ≤ dayNumber r.DATA) &&
      decide (dayNumber r.DATA ≤ dayNumber e))

/-- The `example_ts` series built at line 188: the sliced rows as
(timestamp, value) pairs. -/
def tsOf (rows : List Row) (state product : String) (s e : Date) : List (Date × ℚ) :=
  (filterData rows state product s e).map (fun r => (r.DATA, r.QUANTIDADE0M3))

/-! ## Decomposer: `seasonal_decompose(ts, model='additive', period=12)`

Embedding of the statsmodels classical additive decomposition as invoked at
lines 190-192, for the even period used there: the trend is the centered
moving average with filter `[1/2, 1, ..., 1, 1/2] / period`
(`period + 1` taps), defined only at indices with a full window; the
seasonal component is the per-phase mean of the detrended values,
normalised to zero mean and tiled over the whole series; the residual is
observed minus trend minus seasonal, where the trend is defined.
`seasonal_decompose` raises `ValueError` when the series has fewer than
`2 * period` observations. -/

/-- Centered moving-average trend at index `i` (even-period filter),
`none` outside the full-window region, exactly where statsmodels leaves
`NaN`. -/
def trendFn (xs : List ℚ) (p i : ℕ) : Option ℚ :=
  if p / 2 ≤ i ∧ i + p / 2 < xs.length then
    some ((xs.getD (i - p / 2) 0 / 2
      + ((List.range (p - 1)).map (fun k => xs.getD (i - p / 2 + 1 + k) 0)).sum
      + xs.getD (i + p / 2) 0 / 2) / p)
  else
    none

/-- Detrended value at index `i`, where the trend is defined. -/
def detrendedFn (xs : List ℚ) (p i : ℕ) : Option ℚ :=
  (trendFn xs p i).map (fun t => xs.getD i 0 - t)

/-- The detrended values whose index is congruent to `j` modulo the
period: one seasonal phase. -/
def phaseDetrended (xs : List ℚ) (p j : ℕ) : List ℚ :=
  (List.range xs.length).filterMap
    (fun i => if i % p = j then detrendedFn xs p i else none)

/-- Mean of one seasonal phase (the statsmodels `nanmean` over the phase,
0 when the phase is empty, which cannot happen at or above two full
cycles). -/
def periodAverageRaw (xs : List ℚ) (p j : ℕ) : ℚ :=
  let l := phaseDetrended xs p j
  if l.length = 0 then 0 else l.sum / l.length

/-- The raw seasonal indices of all phases. -/
def periodAverages (xs : List ℚ) (p : ℕ) : List ℚ :=
  (List.range p).map (periodAverageRaw xs p)

/-- Normalised seasonal index of phase `j`: raw index minus the mean of
all raw indices (the additive normalisation). -/
def seasonalIndex (xs : List ℚ) (p j : ℕ) : ℚ :=
  periodAverageRaw xs p j - (periodAverages xs p).sum / p

/-- Seasonal component at index `i`: the normalised index of its phase,
tiled over the whole series. -/
def seasonalFn (xs : List ℚ) (p i : ℕ) : ℚ :=
  seasonalIndex xs p (i % p)

/-- Residual at index `i`: observed minus trend minus seasonal, defined
where the trend is. -/
def residFn (xs : List ℚ) (p i : ℕ) : Option ℚ :=
  (trendFn xs p i).map (fun t => xs.getD i 0 - t - seasonalFn xs p i)

/-- The three index-aligned component sequences returned by
`seasonal_decompose`; `none` entries are the `NaN` edge values. -/
structure Decomp where
  trend : List (Option ℚ)
  seasonal : List ℚ
  resid : List (Option ℚ)
deriving DecidableEq, Repr

/-- The decomposition record for a series of length `n := xs.length`. -/
def decompRecord (xs : List ℚ) (p : ℕ) : Decomp :=
  { trend := (List.range xs.length).map (trendFn xs p)
    seasonal := (List.range xs.length).map (seasonalFn xs p)
    resid := (List.range xs.length).map (residFn xs p) }

/-- Embedding of `seasonal_decompose(xs, model='additive', period=p)`:
raises `ValueError` (the `.error` case) when the series is shorter than
two full cycles, otherwise returns the components. -/
def seasonal_decompose (xs : List ℚ) (p : ℕ) : Except String Decomp :=
  if xs.length < 2 * p then
    .error "x must have 2 complete cycles"
  else
    .ok (decompRecord xs p)

/-! ## Forecaster: `sarima_forecast` (lines 108-146)

The SARIMAX maximum-likelihood fit and its `forecast(steps)` call are a
`statsmodels` library call; the embedding abstracts it as a function
parameter `fitForecast` whose documented contract is that
`fitForecast steps` has length `steps`. The date generation at lines
131-132 is embedded exactly:
`pd.date_range(start=example_ts.index[-1], periods=len(forecast)+1,
freq='M')[1:]`. -/

/-- The forecast bundle: generated future timestamps paired with the
forecasted values. -/
structure ForecastF where
  dates : List Date
  values : List ℚ
deriving DecidableEq, Repr

/-- Date-and-value logic of `sarima_forecast` (lines 117-132), with the
library fit abstracted as `fitForecast`; the source hardcodes
`steps=12` at line 127. -/
def sarima_forecast_core (fitForecast : ℕ → List ℚ) (ts : List (Date × ℚ)) : ForecastF :=
  let vals := fitForecast 12
  let lastDate := (ts.map Prod.fst).getLastD ⟨1970, 1, 1⟩
  { dates := (dateRangeM lastDate (vals.length + 1)).drop 1
    values := vals }

/-- Global names bound at module scope in `streamlit_app.py`: the imports
at lines 1-6 and the function definitions. `SARIMAX` is not among them. -/
def moduleGlobals : List String :=
  ["warnings", "pd", "st", "DynamicFilters", "seasonal_decompose", "px",
   "load_data", "is_valid_date", "validate_fields", "apply_month_mappings",
   "display_filters_sidebar", "display_data_overview", "display_plot",
   "sarima_forecast", "decompose_time_series", "main"]

/-- Outcome of executing a Python call: a returned value, a failure
handled and surfaced as a discriminated value (a `try`/`except` or an
error-checking branch in the source), or an exception propagating
unhandled. -/
inductive PyOutcome (α : Type) where
  | ok (a : α)
  | handled (kind msg : String)
  | unhandledExc (kind msg : String)
deriving DecidableEq, Repr

/-- Executing `sarima_forecast(example_ts, ...)`: the first statement of
the body evaluates the free global name `SARIMAX` (line 122). The module
binds only the names in `moduleGlobals`, so when `SARIMAX` is not among
them Python raises `NameError`; the function body contains no `try` or
`except`, so nothing can produce a handled failure and the exception
propagates. -/
def sarima_forecast_exec (fitForecast : ℕ → List ℚ) (ts : List (Date × ℚ)) :
    PyOutcome ForecastF :=
  if moduleGlobals.contains "SARIMAX" then
    .ok (sarima_forecast_core fitForecast ts)
  else
    .unhandledExc "NameError" "name SARIMAX is not defined"

/-! ## Orchestrator: the `Generate` branch of `decompose_time_series`
(lines 167-221) -/

/-- The bundle of results the `Generate` branch produces for display: the
sliced original series (plotted at lines 183-185) and its decomposition
(plotted at lines 194-216). The `forecast` field mirrors the call to
`sarima_forecast` at line 219, which is commented out in the source, so
the branch never fills it. -/
structure Bundle where
  original : List (Date × ℚ)
  decomposition : Decomp
  forecast : Option ForecastF
deriving DecidableEq, Repr

/-- Outcome of one pipeline run: validation failed (with the warning site
that fired), an exception escaped (the source wraps nothing in
`try`/`except`), or the displayed bundle. -/
inductive PipeOutcome where
  | invalid (w : Option Warn)
  | raised (msg : String)
  | ok (b : Bundle)
deriving DecidableEq, Repr

/-- Embedding of the `Generate` branch (lines 167-221): validate, slice,
decompose, and stop. When validation succeeds the two boundaries are
necessarily present (the `[some s, some e]` shape), so the fallback match
arm is unreachable. A `ValueError` from `seasonal_decompose` is not
caught anywhere and becomes `raised`. -/
def pipelineRun (rows : List Row) (state product : String)
    (period_date : List (Option Date)) : PipeOutcome :=
  match validate_fields state product period_date with
  | (true, _) =>
    match period_date with
    | [some s, some e] =>
      let ts := tsOf rows state product s e
      match seasonal_decompose (ts.map Prod.snd) 12 with
      | .error m => PipeOutcome.raised m
      | .ok dec => PipeOutcome.ok { original := ts, decomposition := dec, forecast := none }
    | _ => PipeOutcome.raised "unreachable"
  | (false, w) => PipeOutcome.invalid w

/-! ## Concrete data used by counterexamples and witnesses -/

/-- A 36-row monthly dataset for one state and one product, January 2001
through December 2003, first-of-month timestamps as in the ANP data,
values 0, 1, ..., 35. -/
def ds0 : List Row :=
  (List.range 36).map (fun i =>
    { DATA := ⟨2001 + i / 12, i % 12 + 1, 1⟩
      ESTADO := "SP"
      PRODUTO := "GASOLINA"
      QUANTIDADE0M3 := (i : ℚ) })

/-- Selection start boundary used with `ds0`. -/
def sel0s : Date := ⟨2001, 1, 1⟩

/-- Selection end boundary used with `ds0`; 1064 days after `sel0s`, so
the selection passes validation, and equal to the last row date, so the
inclusive slice keeps all 36 rows. -/
def sel0e : Date := ⟨2003, 12, 1⟩

/-- A 36-point monthly series with first-of-month timestamps, January
2021 through December 2021+2; its last timestamp is 2023-12-01. -/
def tsC3 : List (Date × ℚ) :=
  (List.range 36).map (fun i => (⟨2021 + i / 12, i % 12 + 1, 1⟩, (i : ℚ)))

/-- A 36-point constant-valued (zero-variance) monthly series. -/
def const36 : List (Date × ℚ) :=
  (List.range 36).map (fun i => (⟨2021 + i / 12, i % 12 + 1, 1⟩, (7 : ℚ)))

/-- A stand-in for the library fit contract in witnesses: `steps` zeros. -/
def fc0 : ℕ → List ℚ := fun n => List.replicate n 0

/-- The decomposition record of the sliced `ds0` series, used by the C4
witness. -/
def dec0 : Decomp :=
  decompRecord ((tsOf ds0 "SP" "GASOLINA" sel0s sel0e).map Prod.snd) 12

/-- The bundle of a successful pipeline run, if any. -/
def PipeOutcome.bundle? : PipeOutcome → Option Bundle
  | .ok b => some b
  | _ => none

/-- Whether an execution outcome is a handled, discriminated failure. -/
def PyOutcome.isHandled {α : Type} : PyOutcome α → Bool
  | .handled _ _ => true
  | _ => false

/-! ## Theorems -/

/-- Helper: indexing a mapped range with a default. -/
theorem getD_map_range {α : Type} (n i : ℕ) (f : ℕ → α) (d : α) :
    (((List.range n).map f).getD i d) = if i < n then f i else d := by
  rcases lt_or_le i n with h | h
  · rw [List.getD_eq_getElem _ _ (by simpa using h), if_pos h]
    simp
  · rw [List.getD_eq_default _ _ (by simpa using h), if_neg (by omega)]

/-- C2: for every selection with non-empty state and product and two
parseable date boundaries, validation fails with the too-short-period
warning (the `RangeTooShortError` of the spec) when the day span of the
range is exactly 24 * 30 days, and passes when it is 24 * 30 + 1 days:
line 41 compares with `<=`, so the floor is exclusive. -/
theorem C2_validator_boundary (state product : String) (s e : Date)
    (hs : state ≠ "") (hp : product ≠ "") :
    ((dayNumber e : ℤ) - (dayNumber s : ℤ) = 24 * 30 →
      validate_fields state product [some s, some e] =
        (false, some Warn.periodTooShort)) ∧
    ((dayNumber e : ℤ) - (dayNumber s : ℤ) = 24 * 30 + 1 →
      validate_fields state product [some s, some e] = (true, none)) := by
  constructor <;> intro h <;>
    · unfold validate_fields
      rw [if_pos ⟨hs, hp, rfl⟩]
      show (if (dayNumber e : ℤ) - (dayNumber s : ℤ) ≤ 24 * 30 then _ else _) = _
      rw [h]
      norm_num

/-- Witness for C2 at concrete dates: 2002-12-22 is exactly 720 days
after 2001-01-01 and is rejected; 2002-12-23 is 721 days after and is
accepted. -/
theorem C2_validator_boundary_witness :
    validate_fields "SP" "GASOLINA" [some ⟨2001, 1, 1⟩, some ⟨2002, 12, 22⟩] =
      (false, some Warn.periodTooShort) ∧
    validate_fields "SP" "GASOLINA" [some ⟨2001, 1, 1⟩, some ⟨2002, 12, 23⟩] =
      (true, none) :=
  ⟨(C2_validator_boundary "SP" "GASOLINA" ⟨2001, 1, 1⟩ ⟨2002, 12, 22⟩
      (by decide) (by decide)).1 (by decide),
   (C2_validator_boundary "SP" "GASOLINA" ⟨2001, 1, 1⟩ ⟨2002, 12, 23⟩
      (by decide) (by decide)).2 (by decide)⟩

/-- C6 counterexample: with an empty state, valid product and a valid
720-plus-day range, validation fails, but the warning site is line 47,
exactly the warning site reached by a date-range failure (non-empty state
and product, only one date picked). The failure reason for a missing
selection is therefore not discriminated from the date-related failure
kinds: the claim is false at this input. -/
theorem C6_counterexample :
    (validate_fields "" "GASOLINA" [some sel0s, some sel0e]).1 = false ∧
    (validate_fields "" "GASOLINA" [some sel0s, some sel0e]).2 = some Warn.invalidDate ∧
    (validate_fields "" "GASOLINA" [some sel0s, some sel0e]).2 =
      (validate_fields "SP" "GASOLINA" [some sel0s]).2 := by
  decide

/-- C6 amended: when state or product is empty, validation fails, but the
surfaced warning is the generic line-47 one (text about an invalid date),
shared with the incomplete-date-range failure, rather than a
missing-selection-specific reason. -/
theorem C6_missing_selection_amended (state product : String)
    (period_date : List (Option Date)) (h : state = "" ∨ product = "") :
    validate_fields state product period_date = (false, some Warn.invalidDate) := by
  unfold validate_fields
  rw [if_neg]
  rintro ⟨h1, h2, -⟩
  rcases h with h | h
  · exact h1 h
  · exact h2 h

/-- Witness for the amended C6 at an empty state. -/
theorem C6_missing_selection_witness :
    validate_fields "" "GASOLINA" [some sel0s, some sel0e] =
      (false, some Warn.invalidDate) :=
  C6_missing_selection_amended "" "GASOLINA" [some sel0s, some sel0e] (Or.inl rfl)

/-- C9: when the date range does not hold exactly two boundaries, the
line-28 guard fails and the else branch at line 47 fires, whatever the
boundaries contain, so no date is parsed and no span is checked; this
holds even when state and product are both non-empty. -/
theorem C9_incomplete_range (state product : String)
    (period_date : List (Option Date))
    (_hs : state ≠ "") (_hp : product ≠ "") (hl : period_date.length ≠ 2) :
    validate_fields state product period_date = (false, some Warn.invalidDate) := by
  unfold validate_fields
  rw [if_neg]
  rintro ⟨-, -, h2⟩
  exact hl h2

/-- Witness for C9: one picked date, non-empty state and product. -/
theorem C9_incomplete_range_witness :
    validate_fields "SP" "GASOLINA" [some sel0s] = (false, some Warn.invalidDate) :=
  C9_incomplete_range "SP" "GASOLINA" [some sel0s] (by decide) (by decide) (by decide)

/-- C10: when the end date is strictly earlier than the start date, the
day span is negative, hence at most 24 * 30, so the line-41 check fails
validation; consequently the pipeline run stops at validation and never
reaches slicing, decomposition or forecasting. -/
theorem C10_reversed_range (state product : String) (s e : Date)
    (hs : state ≠ "") (hp : product ≠ "") (hlt : dayNumber e < dayNumber s) :
    validate_fields state product [some s, some e] =
      (false, some Warn.periodTooShort) ∧
    ∀ rows : List Row,
      pipelineRun rows state product [some s, some e] =
        PipeOutcome.invalid (some Warn.periodTooShort) := by
  have hval : validate_fields state product [some s, some e] =
      (false, some Warn.periodTooShort) := by
    unfold validate_fields
    rw [if_pos ⟨hs, hp, rfl⟩]
    show (if (dayNumber e : ℤ) - (dayNumber s : ℤ) ≤ 24 * 30 then _ else _) = _
    rw [if_pos (by omega)]
  refine ⟨hval, fun rows => ?_⟩
  unfold pipelineRun
  rw [hval]

/-- Witness for C10 with the `ds0` boundaries reversed. -/
theorem C10_reversed_range_witness :
    validate_fields "SP" "GASOLINA" [some sel0e, some sel0s] =
      (false, some Warn.periodTooShort) ∧
    pipelineRun ds0 "SP" "GASOLINA" [some sel0e, some sel0s] =
      PipeOutcome.invalid (some Warn.periodTooShort) :=
  ⟨(C10_reversed_range "SP" "GASOLINA" sel0e sel0s
      (by decide) (by decide) (by decide)).1,
   (C10_reversed_range "SP" "GASOLINA" sel0e sel0s
      (by decide) (by decide) (by decide)).2 ds0⟩

/-- C7: the slice at lines 176-180 keeps exactly the rows matching the
selected state and product whose date lies in the validated range, with
both boundaries inclusive (the comparisons are `>=` and `<=`): a row is in
the sliced series if and only if it is in the dataset and satisfies all
four conditions, including equality at either boundary. -/
theorem C7_slice_inclusive (rows : List Row) (state product : String)
    (s e : Date) (r : Row) :
    r ∈ filterData rows state product s e ↔
      r ∈ rows ∧ r.ESTADO = state ∧ r.PRODUTO = product ∧
        dayNumber s ≤ dayNumber r.DATA ∧ dayNumber r.DATA ≤ dayNumber e := by
  simp [filterData, List.mem_filter, and_assoc]

/-- C5: the forecast has exactly 12 values (the source hardcodes
`steps=12` at line 127, and the statsmodels contract, taken as the
hypothesis `hlib`, is that `forecast(steps)` returns `steps` values), and
the generated date range at lines 131-132 uses `periods=len(forecast)+1`
and drops its anchor, so there are exactly as many dates as values. -/
theorem C5_forecast_length (fitForecast : ℕ → List ℚ) (ts : List (Date × ℚ))
    (hlib : (fitForecast 12).length = 12) :
    (sarima_forecast_core fitForecast ts).values.length = 12 ∧
    (sarima_forecast_core fitForecast ts).dates.length =
      (sarima_forecast_core fitForecast ts).values.length := by
  unfold sarima_forecast_core
  simp [dateRangeM, hlib]

/-- Witness for C5: the zero fit on the 36-point series. -/
theorem C5_forecast_length_witness :
    (sarima_forecast_core fc0 tsC3).values.length = 12 ∧
    (sarima_forecast_core fc0 tsC3).dates.length =
      (sarima_forecast_core fc0 tsC3).values.length :=
  C5_forecast_length fc0 tsC3 (by simp [fc0])

/-- C4: for every series decomposed additively and every index where the
centered-moving-average trend (hence the residual) is defined, the
observed value equals trend plus seasonal plus residual. The statsmodels
residual is defined as observed minus trend minus seasonal, so over the
rationals the reconstruction is exact, which implies the claim's
within-epsilon form for every positive epsilon. -/
theorem C4_reconstruction (xs : List ℚ) (p i : ℕ) (dec : Decomp) (t r : ℚ)
    (hd : seasonal_decompose xs p = .ok dec)
    (ht : dec.trend.getD i none = some t)
    (hr : dec.resid.getD i none = some r) :
    xs.getD i 0 = t + dec.seasonal.getD i 0 + r := by
  have hrec : dec = decompRecord xs p := by
    unfold seasonal_decompose at hd
    split at hd
    · exact absurd hd (by simp)
    · simpa using hd.symm
  subst hrec
  unfold decompRecord at ht hr ⊢
  simp only [getD_map_range] at ht hr ⊢
  by_cases hi : i < xs.length
  · rw [if_pos hi] at ht hr ⊢
    unfold residFn at hr
    rw [ht] at hr
    simp only [Option.map_some'] at hr
    have hr' : r = xs.getD i 0 - t - seasonalFn xs p i := by
      exact (Option.some.injEq .. ▸ hr).symm
    rw [hr']
    ring
  · rw [if_neg hi] at ht
    exact absurd ht (by simp)

/-- Witness for C4: the decomposition of the sliced `ds0` series at the
first interior index 6. -/
theorem C4_reconstruction_witness :
    ((tsOf ds0 "SP" "GASOLINA" sel0s sel0e).map Prod.snd).getD 6 0 =
      (dec0.trend.getD 6 none).getD 0 + dec0.seasonal.getD 6 0 +
        (dec0.resid.getD 6 none).getD 0 :=
  C4_reconstruction ((tsOf ds0 "SP" "GASOLINA" sel0s sel0e).map Prod.snd) 12 6 dec0
    ((dec0.trend.getD 6 none).getD 0) ((dec0.resid.getD 6 none).getD 0)
    rfl rfl rfl

/-- Helper: when validation succeeds and the slice is long enough for the
decomposition, the Generate branch returns the bundle of the sliced
series and its decomposition, with no forecast (the line-219 call is
commented out). -/
theorem pipelineRun_ok_char (rows : List Row) (state product : String)
    (s e : Date)
    (hv : (validate_fields state product [some s, some e]).1 = true)
    (hn : 24 ≤ (filterData rows state product s e).length) :
    pipelineRun rows state product [some s, some e] =
      PipeOutcome.ok
        { original := tsOf rows state product s e
          decomposition := decompRecord ((tsOf rows state product s e).map Prod.snd) 12
          forecast := none } := by
  unfold pipelineRun
  rcases hval : validate_fields state product [some s, some e] with ⟨b, w⟩
  rw [hval] at hv
  simp only at hv
  subst hv
  have hdec : seasonal_decompose ((tsOf rows state product s e).map Prod.snd) 12 =
      .ok (decompRecord ((tsOf rows state product s e).map Prod.snd) 12) := by
    unfold seasonal_decompose
    rw [if_neg]
    simp only [tsOf, List.length_map]
    omega
  simp only [hdec]

/-- C1 counterexample: a concrete dataset and selection that pass
validation, for which the Generate branch succeeds and displays a bundle,
but the bundle holds no forecast result: the `sarima_forecast` call at
line 219 is commented out, so the run never fits a SARIMA model. The
claim that every validated run produces the full bundle including a
forecast is false at this input. -/
theorem C1_counterexample :
    (validate_fields "SP" "GASOLINA" [some sel0s, some sel0e]).1 = true ∧
    (pipelineRun ds0 "SP" "GASOLINA" [some sel0s, some sel0e]).bundle?.isSome = true ∧
    ((pipelineRun ds0 "SP" "GASOLINA" [some sel0s, some sel0e]).bundle?.bind
        Bundle.forecast).isSome = false := by
  refine ⟨by decide, ?_, ?_⟩ <;>
    · rw [pipelineRun_ok_char ds0 "SP" "GASOLINA" sel0s sel0e (by decide) (by decide)]
      rfl

/-- C1 amended: for every dataset and selection, the Generate branch
short-circuits on validation failure; and when validation succeeds and
the sliced series has at least 24 observations (so the decomposition does
not raise), the run produces the sliced original series and its
decomposition computed from that series, with steps in the order
validate, slice, decompose — but no forecast result, since the forecast
step at line 219 is commented out. -/
theorem C1_pipeline_amended :
    (∀ (rows : List Row) (state product : String)
        (period_date : List (Option Date)),
      (validate_fields state product period_date).1 = false →
      pipelineRun rows state product period_date =
        PipeOutcome.invalid (validate_fields state product period_date).2) ∧
    (∀ (rows : List Row) (state product : String) (s e : Date),
      (validate_fields state product [some s, some e]).1 = true →
      24 ≤ (filterData rows state product s e).length →
      pipelineRun rows state product [some s, some e] =
        PipeOutcome.ok
          { original := tsOf rows state product s e
            decomposition := decompRecord ((tsOf rows state product s e).map Prod.snd) 12
            forecast := none }) := by
  constructor
  · intro rows state product period_date hv
    unfold pipelineRun
    rcases hval : validate_fields state product period_date with ⟨b, w⟩
    rw [hval] at hv
    simp only at hv
    subst hv
    rfl
  · exact fun rows state product s e hv hn =>
      pipelineRun_ok_char rows state product s e hv hn

/-- Witness for the amended C1 on the concrete dataset and selection. -/
theorem C1_pipeline_amended_witness :
    pipelineRun ds0 "SP" "GASOLINA" [some sel0s, some sel0e] =
      PipeOutcome.ok
        { original := tsOf ds0 "SP" "GASOLINA" sel0s sel0e
          decomposition :=
            decompRecord ((tsOf ds0 "SP" "GASOLINA" sel0s sel0e).map Prod.snd) 12
          forecast := none } :=
  C1_pipeline_amended.2 ds0 "SP" "GASOLINA" sel0s sel0e (by decide) (by decide)

/-- C8 counterexample: on the constant-valued 36-month series, executing
`sarima_forecast` does not produce a discriminated `ModelFitError`-style
failure: the module never imports `SARIMAX`, so the body raises
`NameError` at line 122, and since the source contains no `try`/`except`
and defines no error taxonomy, the exception propagates as an unhandled
fault, contradicting the claim at this input. -/
theorem C8_counterexample :
    (sarima_forecast_exec fc0 const36).isHandled = false ∧
    sarima_forecast_exec fc0 const36 =
      PyOutcome.unhandledExc "NameError" "name SARIMAX is not defined" := by
  decide

/-- C8 amended: calling `sarima_forecast` on any series, the constant
36-month one included, raises an unhandled `NameError` because `SARIMAX`
is not bound at module scope; no discriminated `ModelFitError` exists in
the code, and no failure of the fit is ever handled. (In the shipped app
the call site at line 219 is commented out, so the function never runs at
all.) -/
theorem C8_no_handled_failure (fitForecast : ℕ → List ℚ) (ts : List (Date × ℚ)) :
    sarima_forecast_exec fitForecast ts =
      PyOutcome.unhandledExc "NameError" "name SARIMAX is not defined" ∧
    (sarima_forecast_exec fitForecast ts).isHandled = false := by
  have hbound : "SARIMAX" ∉ moduleGlobals := by decide
  constructor <;> simp [sarima_forecast_exec, hbound, PyOutcome.isHandled]

/-- Helper: every month of the year has at least 28 days. -/
theorem daysInMonthL_ge (leap : Bool) (m : ℕ) (h1 : 1 ≤ m) (h2 : m ≤ 12) :
    28 ≤ daysInMonthL leap m := by
  cases leap <;> interval_cases m <;> decide

/-- Helper: peeling one month off the month prefix sum. -/
theorem daysBeforeMonth_succ (leap : Bool) (m : ℕ) :
    daysBeforeMonth leap (m + 1) = daysBeforeMonth leap m + daysInMonthL leap m :=
  rfl

set_option maxHeartbeats 1600000 in
/-- Helper: a year has 365 days, 366 when leap. -/
theorem daysBeforeYear_succ (y : ℕ) (hy : 1 ≤ y) :
    daysBeforeYear (y + 1) =
      daysBeforeYear y + 365 + (if isLeapYear y then 1 else 0) := by
  rcases Nat.exists_eq_add_of_le hy with ⟨k, rfl⟩
  simp only [daysBeforeYear, isLeapYear]
  rw [show 1 + k + 1 - 1 = k + 1 from by omega, show 1 + k - 1 = k from by omega]
  split_ifs with hl
  · simp only [Bool.or_eq_true, Bool.and_eq_true, beq_iff_eq, bne_iff_ne, ne_eq] at hl
    omega
  · simp only [Bool.or_eq_true, Bool.and_eq_true, beq_iff_eq, bne_iff_ne, ne_eq] at hl
    push_neg at hl
    omega

/-- Helper: advancing by months one step at a time. -/
theorem ymAdd_succ (y m k : ℕ) :
    ymAdd y m (k + 1) = ymAdd (ymAdd y m k).1 (ymAdd y m k).2 1 := by
  simp only [ymAdd, Prod.mk.injEq]
  constructor <;> omega

/-- Helper: month advance keeps the year positive and the month in
1..12. -/
theorem ymAdd_valid (y m k : ℕ) (hy : 1 ≤ y) :
    1 ≤ (ymAdd y m k).1 ∧ 1 ≤ (ymAdd y m k).2 ∧ (ymAdd y m k).2 ≤ 12 := by
  simp only [ymAdd]
  refine ⟨by omega, by omega, by omega⟩

/-- Helper: consecutive month ends are strictly increasing in time. -/
theorem dayNumber_monthEnd_lt_next (y m : ℕ) (hy : 1 ≤ y)
    (hm1 : 1 ≤ m) (hm2 : m ≤ 12) :
    dayNumber (monthEndYM (y, m)) < dayNumber (monthEndYM (ymAdd y m 1)) := by
  rcases Nat.lt_or_ge m 12 with hlt | hge
  · have hadd : ymAdd y m 1 = (y, m + 1) := by
      simp only [ymAdd, Prod.mk.injEq]
      constructor <;> omega
    rw [hadd]
    simp only [monthEndYM, dayNumber, daysInMonth]
    have hdbm := daysBeforeMonth_succ (isLeapYear y) m
    have h1 := daysInMonthL_ge (isLeapYear y) m hm1 hm2
    have h2 := daysInMonthL_ge (isLeapYear y) (m + 1) (by omega) (by omega)
    omega
  · have hm : m = 12 := by omega
    subst hm
    have hadd : ymAdd y 12 1 = (y + 1, 1) := by
      simp [ymAdd]
    rw [hadd]
    simp only [monthEndYM, dayNumber, daysInMonth]
    have hdby := daysBeforeYear_succ y hy
    have h334 : daysBeforeMonth false 12 = 334 := by decide
    have h335 : daysBeforeMonth true 12 = 335 := by decide
    have hdim12 : daysInMonthL (isLeapYear y) 12 = 31 := rfl
    have hdim1 : daysInMonthL (isLeapYear (y + 1)) 1 = 31 := rfl
    have hdbm1 : daysBeforeMonth (isLeapYear (y + 1)) 1 = 0 := rfl
    rw [hdim12, hdim1, hdbm1]
    cases hl : isLeapYear y
    · rw [hl] at hdby
      simp at hdby
      rw [h334]
      omega
    · rw [hl] at hdby
      simp at hdby
      rw [h335]
      omega

/-- C3 counterexample: on a 36-point monthly series with first-of-month
timestamps ending at 2023-12-01, the first generated forecast timestamp
is 2024-01-31 (the month end produced by `freq='M'`), not 2024-01-01,
which is the timestamp exactly one month after the last historical one:
the claim is false at this input. -/
theorem C3_counterexample :
    (tsC3.map Prod.fst).getLastD ⟨1970, 1, 1⟩ = (⟨2023, 12, 1⟩ : Date) ∧
    (sarima_forecast_core fc0 tsC3).dates.getD 0 ⟨0, 0, 0⟩ = (⟨2024, 1, 31⟩ : Date) ∧
    pdAddMonths ⟨2023, 12, 1⟩ 1 = (⟨2024, 1, 1⟩ : Date) ∧
    (sarima_forecast_core fc0 tsC3).dates.getD 0 ⟨0, 0, 0⟩ ≠
      pdAddMonths ⟨2023, 12, 1⟩ 1 := by
  decide

/-- C3 amended: the generated forecast timestamps are the month ends of
the consecutive calendar months immediately following the month of the
series' last historical timestamp (`freq='M'` anchors every generated
date to a month end), and they are strictly increasing. Contiguity at one
calendar month per step holds at month granularity; the claimed relation
"first timestamp = last historical timestamp + 1 month" holds only when
the last historical timestamp is itself a month end, which the
first-of-month ANP data is not. -/
theorem C3_forecast_dates_amended (fitForecast : ℕ → List ℚ)
    (ts : List (Date × ℚ)) (y m d : ℕ) (hy : 1 ≤ y)
    (hlast : (ts.map Prod.fst).getLastD ⟨1970, 1, 1⟩ = ⟨y, m, d⟩) :
    (sarima_forecast_core fitForecast ts).dates =
      (List.range (fitForecast 12).length).map
        (fun k => monthEndYM (ymAdd y m (k + 1))) ∧
    List.Chain' (fun a b => dayNumber a < dayNumber b)
      (sarima_forecast_core fitForecast ts).dates := by
  have hdates : (sarima_forecast_core fitForecast ts).dates =
      (List.range (fitForecast 12).length).map
        (fun k => monthEndYM (ymAdd y m (k + 1))) := by
    unfold sarima_forecast_core
    simp only [hlast, dateRangeM]
    rw [List.range_succ_eq_map]
    simp only [List.map_cons, List.drop_succ_cons, List.drop_zero, List.map_map]
    simp [Function.comp]
  refine ⟨hdates, ?_⟩
  rw [hdates, List.chain'_map]
  rcases hn : (fitForecast 12).length with _ | n
  · simp
  · rw [List.chain'_range_succ]
    intro k hk
    have hstep := ymAdd_succ y m (k + 1)
    rw [hstep]
    rcases hp : ymAdd y m (k + 1) with ⟨y', m'⟩
    have hval := ymAdd_valid y m (k + 1) hy
    rw [hp] at hval
    exact dayNumber_monthEnd_lt_next y' m' hval.1 hval.2.1 hval.2.2

/-- Witness for the amended C3 on the concrete series and zero fit. -/
theorem C3_forecast_dates_amended_witness :
    (sarima_forecast_core fc0 tsC3).dates =
      (List.range (fc0 12).length).map
        (fun k => monthEndYM (ymAdd 2023 12 (k + 1))) ∧
    List.Chain' (fun a b => dayNumber a < dayNumber b)
      (sarima_forecast_core fc0 tsC3).dates :=
  C3_forecast_dates_amended fc0 tsC3 2023 12 1 (by decide) (by decide)
